import Mathlib

/-!
Shallow embedding of the Hospital-Management application core
(`core/models.py`, `core/views.py`, `core/forms.py`, `core/mixins.py`),
with theorems about the authorization gate, the appointment workflow,
the registration/approval workflow, profile lazy creation and the
billing recomputation.
-/

namespace Hospital

/-- `CustomUser.ROLE_CHOICES` in `core/models.py`. -/
inductive Role
  | ADMIN
  | DOCTOR
  | PATIENT
  deriving DecidableEq, Repr

/-- `Appointment.STATUS_CHOICES` in `core/models.py`. -/
inductive ApptStatus
  | PENDING
  | CONFIRMED
  | CANCELLED
  | COMPLETED
  deriving DecidableEq, Repr

/-- `Bill.STATUS_CHOICES` in `core/models.py`. -/
inductive BillStatus
  | PENDING
  | PAID
  | PARTIAL
  | CANCELLED
  deriving DecidableEq, Repr

/-- The fields of `CustomUser` the workflow logic reads:
`role`, `is_approved`, plus Django's `request.user.is_authenticated`
(false exactly for the anonymous user). -/
structure CustomUser where
  id : Nat
  role : Role
  is_approved : Bool
  is_authenticated : Bool
  deriving DecidableEq, Repr

/-- `CustomUser.is_admin`: `self.role == 'ADMIN' and self.is_approved`. -/
def CustomUser.is_admin (u : CustomUser) : Bool :=
  u.role == Role.ADMIN && u.is_approved

/-- `CustomUser.is_doctor`: `self.role == 'DOCTOR' and self.is_approved`. -/
def CustomUser.is_doctor (u : CustomUser) : Bool :=
  u.role == Role.DOCTOR && u.is_approved

/-- `CustomUser.is_patient`: `self.role == 'PATIENT' and self.is_approved`. -/
def CustomUser.is_patient (u : CustomUser) : Bool :=
  u.role == Role.PATIENT && u.is_approved

/-- The role-gate `test_func` of `AdminRequiredMixin`, `DoctorRequiredMixin`
and `PatientRequiredMixin` in `core/mixins.py`, dispatched on the role class
the view requires: each one is
`request.user.is_authenticated and request.user.is_<role>()`. -/
def roleGate (u : CustomUser) (required : Role) : Bool :=
  match required with
  | Role.ADMIN => u.is_authenticated && u.is_admin
  | Role.DOCTOR => u.is_authenticated && u.is_doctor
  | Role.PATIENT => u.is_authenticated && u.is_patient

/-- Claim C4: the authorization gate permits a request exactly when the actor
is authenticated, the actor's stored role equals the requested role class,
and the actor's approval flag is set; an authenticated actor with the wrong
role or with `is_approved = false` is denied. -/
theorem roleGate_permits_iff (u : CustomUser) (required : Role) :
    roleGate u required = true ↔
      u.is_authenticated = true ∧ u.role = required ∧ u.is_approved = true := by
  cases required <;>
    simp [roleGate, CustomUser.is_admin, CustomUser.is_doctor,
      CustomUser.is_patient, and_assoc]

/-- The fields of `Appointment` (`core/models.py`) the workflow logic touches.
Dates and times flow through the views as raw request strings
(`request.POST.get('new_date')`), so they are kept opaque here. -/
structure Appointment where
  id : Nat
  patientId : Nat
  doctorId : Nat
  appointment_date : String
  appointment_time : String
  status : ApptStatus
  appointment_type : String
  reason : String
  deriving DecidableEq, Repr

/-- `update_appointment_status` in `core/views.py` (lines 362-388), acting on
the appointment fetched by `get_object_or_404(Appointment, id=..., doctor=request.user)`:
`@login_required` plus the `request.user.is_doctor()` check guard the whole body;
the ownership filter makes a non-owned appointment a 404 (no change); then the
POST `action` string selects the branch, and an unrecognized action is a no-op. -/
def update_appointment_status (actor : CustomUser) (appt : Appointment)
    (action new_date new_time : String) : Appointment :=
  if !(actor.is_authenticated && actor.is_doctor) then appt
  else if !(appt.doctorId == actor.id) then appt
  else if action == "confirm" then { appt with status := ApptStatus.CONFIRMED }
  else if action == "cancel" then { appt with status := ApptStatus.CANCELLED }
  else if action == "reschedule" then
    { appt with appointment_date := new_date, appointment_time := new_time,
                status := ApptStatus.PENDING }
  else appt

/-- Claim C2 counterexample: a CANCELLED appointment does not reject a further
transition request — its owning doctor's `confirm` action moves it to CONFIRMED,
so the status does not stay unchanged. -/
theorem cancelled_appt_confirm_changes_status :
    (update_appointment_status
      { id := 1, role := Role.DOCTOR, is_approved := true, is_authenticated := true }
      { id := 10, patientId := 2, doctorId := 1, appointment_date := "2026-01-05",
        appointment_time := "09:00", status := ApptStatus.CANCELLED,
        appointment_type := "OPD", reason := "" }
      "confirm" "" "").status = ApptStatus.CONFIRMED := by
  decide

/-- Claim C2 amended: `update_appointment_status` never inspects the prior
status, so no state is terminal: for an appointment owned by the acting
approved doctor, and any prior status (CANCELLED and COMPLETED included),
`confirm` yields CONFIRMED, `cancel` yields CANCELLED and `reschedule`
yields PENDING. -/
theorem update_status_ignores_prior_status (actor : CustomUser) (appt : Appointment)
    (h1 : actor.is_authenticated = true) (h2 : actor.is_doctor = true)
    (h3 : appt.doctorId = actor.id) (d t : String) :
    (update_appointment_status actor appt "confirm" d t).status = ApptStatus.CONFIRMED ∧
    (update_appointment_status actor appt "cancel" d t).status = ApptStatus.CANCELLED ∧
    (update_appointment_status actor appt "reschedule" d t).status = ApptStatus.PENDING := by
  simp [update_appointment_status, h1, h2, h3]

/-- Witness for the amended claim C2 at a concrete doctor and a COMPLETED
appointment. -/
theorem update_status_ignores_prior_status_witness :
    (update_appointment_status
      { id := 1, role := Role.DOCTOR, is_approved := true, is_authenticated := true }
      { id := 11, patientId := 2, doctorId := 1, appointment_date := "2026-01-05",
        appointment_time := "09:00", status := ApptStatus.COMPLETED,
        appointment_type := "OPD", reason := "" }
      "confirm" "2026-02-01" "10:00").status = ApptStatus.CONFIRMED ∧
    (update_appointment_status
      { id := 1, role := Role.DOCTOR, is_approved := true, is_authenticated := true }
      { id := 11, patientId := 2, doctorId := 1, appointment_date := "2026-01-05",
        appointment_time := "09:00", status := ApptStatus.COMPLETED,
        appointment_type := "OPD", reason := "" }
      "cancel" "2026-02-01" "10:00").status = ApptStatus.CANCELLED ∧
    (update_appointment_status
      { id := 1, role := Role.DOCTOR, is_approved := true, is_authenticated := true }
      { id := 11, patientId := 2, doctorId := 1, appointment_date := "2026-01-05",
        appointment_time := "09:00", status := ApptStatus.COMPLETED,
        appointment_type := "OPD", reason := "" }
      "cancel" "2026-02-01" "10:00").status = ApptStatus.CANCELLED := by
  exact ⟨(update_status_ignores_prior_status _ _ (by decide) (by decide) (by decide) _ _).1,
    (update_status_ignores_prior_status _ _ (by decide) (by decide) (by decide) _ _).2.1,
    (update_status_ignores_prior_status _ _ (by decide) (by decide) (by decide) _ _).2.1⟩

/-- Claim C6: the `reschedule` branch, for an appointment owned by the acting
doctor and in any prior status, resets the status to PENDING and overwrites
the date and time with the caller-supplied values. -/
theorem reschedule_resets_to_pending (actor : CustomUser) (appt : Appointment)
    (h1 : actor.is_authenticated = true) (h2 : actor.is_doctor = true)
    (h3 : appt.doctorId = actor.id) (d t : String) :
    (update_appointment_status actor appt "reschedule" d t).status = ApptStatus.PENDING ∧
    (update_appointment_status actor appt "reschedule" d t).appointment_date = d ∧
    (update_appointment_status actor appt "reschedule" d t).appointment_time = t := by
  simp [update_appointment_status, h1, h2, h3]

/-- Witness for claim C6 at a concrete doctor and a CONFIRMED appointment. -/
theorem reschedule_resets_to_pending_witness :
    (update_appointment_status
      { id := 3, role := Role.DOCTOR, is_approved := true, is_authenticated := true }
      { id := 12, patientId := 2, doctorId := 3, appointment_date := "2026-01-05",
        appointment_time := "09:00", status := ApptStatus.CONFIRMED,
        appointment_type := "OPD", reason := "" }
      "reschedule" "2026-03-01" "11:30").status = ApptStatus.PENDING := by
  exact (reschedule_resets_to_pending _ _ (by decide) (by decide) (by decide) "2026-03-01" "11:30").1

/-- The parameter bag a patient submits to `PatientAppointmentCreateView`.
`AppointmentForm.Meta.fields` in `core/forms.py` is
`['doctor', 'appointment_date', 'appointment_time', 'appointment_type', 'reason']`,
so a caller-supplied `status` value (modelled here so the claim can quantify
over it) is never read by the form, and `form_valid` then forcibly sets
`form.instance.status = 'PENDING'`. -/
structure AppointmentParams where
  doctorId : Nat
  appointment_date : String
  appointment_time : String
  appointment_type : String
  reason : String
  status : Option ApptStatus
  deriving DecidableEq, Repr

/-- `PatientAppointmentCreateView` (`core/views.py` lines 546-556) together
with `AppointmentForm`: `PatientRequiredMixin` guards entry; the form is valid
only if the chosen doctor is in the queryset
`CustomUser.objects.filter(role='DOCTOR', is_approved=True)`; on success
`form_valid` sets `patient = request.user` and `status = 'PENDING'`. -/
def patientCreateAppointment (users : List CustomUser) (actor : CustomUser)
    (freshId : Nat) (p : AppointmentParams) : Option Appointment :=
  if !(actor.is_authenticated && actor.is_patient) then none
  else if users.any (fun u => u.id == p.doctorId && u.role == Role.DOCTOR && u.is_approved) then
    some { id := freshId, patientId := actor.id, doctorId := p.doctorId,
           appointment_date := p.appointment_date,
           appointment_time := p.appointment_time,
           status := ApptStatus.PENDING,
           appointment_type := p.appointment_type, reason := p.reason }
  else none

/-- Claim C3: for an approved, authenticated patient and an approved doctor,
appointment creation succeeds and the created appointment's status is PENDING
and its patient is the actor — whatever `status` the parameter bag carries. -/
theorem patient_create_appointment_pending (users : List CustomUser)
    (actor D : CustomUser) (freshId : Nat) (p : AppointmentParams)
    (h1 : actor.is_authenticated = true) (h2 : actor.is_patient = true)
    (hD : D ∈ users) (hDid : D.id = p.doctorId) (hDrole : D.role = Role.DOCTOR)
    (hDappr : D.is_approved = true) :
    ∃ a : Appointment, patientCreateAppointment users actor freshId p = some a ∧
      a.status = ApptStatus.PENDING ∧ a.patientId = actor.id ∧
      a.doctorId = p.doctorId := by
  have hany : users.any
      (fun u => u.id == p.doctorId && u.role == Role.DOCTOR && u.is_approved) = true := by
    rw [List.any_eq_true]
    exact ⟨D, hD, by simp [hDid, hDrole, hDappr]⟩
  unfold patientCreateAppointment
  rw [h1, h2, hany]
  exact ⟨_, rfl, rfl, rfl, rfl⟩

/-- Witness for claim C3: a concrete approved patient books a concrete
approved doctor while smuggling `status := CONFIRMED` in the parameter bag;
the stored appointment is PENDING. -/
theorem patient_create_appointment_pending_witness :
    ∃ a : Appointment,
      patientCreateAppointment
        [{ id := 5, role := Role.DOCTOR, is_approved := true, is_authenticated := false }]
        { id := 9, role := Role.PATIENT, is_approved := true, is_authenticated := true }
        100
        { doctorId := 5, appointment_date := "2026-04-01", appointment_time := "10:00",
          appointment_type := "OPD", reason := "checkup",
          status := some ApptStatus.CONFIRMED } = some a ∧
      a.status = ApptStatus.PENDING ∧ a.patientId = 9 ∧ a.doctorId = 5 := by
  exact patient_create_appointment_pending _ _
    { id := 5, role := Role.DOCTOR, is_approved := true, is_authenticated := false }
    _ _ (by decide) (by decide) (by simp) (by decide) (by decide) (by decide)

/-- The fields of `Bill` (`core/models.py`) the billing logic touches.
Money amounts are Django `DecimalField(decimal_places=2)` values, embedded
exactly as integer cents. -/
structure Bill where
  id : Nat
  patientId : Nat
  total_amount : Int
  paid_amount : Int
  status : BillStatus
  deriving DecidableEq, Repr

/-- `BillItem` (`core/models.py`): `quantity` is an integer, `unit_price`
and `total_price` are 2-decimal amounts in cents. -/
structure BillItem where
  id : Nat
  billId : Nat
  description : String
  quantity : Int
  unit_price : Int
  total_price : Int
  deriving DecidableEq, Repr

/-- The persisted billing rows: the bills table and the bill-items table. -/
structure BillingState where
  bills : List Bill
  items : List BillItem
  deriving DecidableEq, Repr

/-- `bill.items.all()`: the rows whose foreign key points at the bill. -/
def itemsOf (items : List BillItem) (billId : Nat) : List BillItem :=
  items.filter (fun it => it.billId == billId)

/-- `sum(item.total_price for item in bill.items.all())`. -/
def sumTotalPrices (l : List BillItem) : Int :=
  (l.map BillItem.total_price).sum

/-- Django `Model.save` row semantics: UPDATE the row with this primary key
when it exists, INSERT the row otherwise. -/
def upsertItem (items : List BillItem) (it : BillItem) : List BillItem :=
  if items.any (fun x => x.id == it.id)
  then items.map (fun x => if x.id == it.id then it else x)
  else items ++ [it]

/-- `BillItem.save` (`core/models.py` lines 305-311): set
`total_price = quantity * unit_price`, persist the item, then set the parent
bill's `total_amount` to the sum of `total_price` over all of that bill's
persisted items and save the bill. -/
def BillItem.save (s : BillingState) (it : BillItem) : BillingState :=
  let saved : BillItem := { it with total_price := it.quantity * it.unit_price }
  let items := upsertItem s.items saved
  let bills := s.bills.map (fun b =>
    if b.id == saved.billId
    then { b with total_amount := sumTotalPrices (itemsOf items b.id) }
    else b)
  { bills := bills, items := items }

/-- `BillItem` deletion: the model defines no `delete` override and no signal
handler, so the default delete removes the row and writes nothing else —
in particular the parent bill is not touched. -/
def BillItem.deleteItem (s : BillingState) (itemId : Nat) : BillingState :=
  { s with items := s.items.filter (fun x => !(x.id == itemId)) }

/-- Claim C1: the code violates the stated invariant on deletion. Starting
from a bill with total 0 and no items, saving one item (quantity 1, unit
price 10.00) correctly drives the bill total to 10.00, but deleting that item
leaves the total at 10.00 while the sum over the bill's remaining items is 0:
no recomputation is triggered by a `BillItem` delete. -/
theorem bill_delete_leaves_stale_total :
    ((BillItem.deleteItem
        (BillItem.save
          { bills := [{ id := 1, patientId := 7, total_amount := 0,
                        paid_amount := 0, status := BillStatus.PENDING }],
            items := [] }
          { id := 1, billId := 1, description := "X-ray", quantity := 1,
            unit_price := 1000, total_price := 0 })
        1).bills.map Bill.total_amount) = [1000] ∧
    sumTotalPrices (itemsOf
      (BillItem.deleteItem
        (BillItem.save
          { bills := [{ id := 1, patientId := 7, total_amount := 0,
                        paid_amount := 0, status := BillStatus.PENDING }],
            items := [] }
          { id := 1, billId := 1, description := "X-ray", quantity := 1,
            unit_price := 1000, total_price := 0 })
        1).items 1) = 0 := by
  decide

/-- Claim C8: after a `BillItem.save`, every persisted item with the saved
item's primary key has `total_price = quantity * unit_price`, computed
exactly in fixed 2-decimal (integer-cents) arithmetic. -/
theorem billitem_save_total_price (s : BillingState) (it : BillItem) :
    ∀ x ∈ (BillItem.save s it).items, x.id = it.id →
      x.total_price = it.quantity * it.unit_price := by
  intro x hx hid
  simp only [BillItem.save] at hx
  rw [upsertItem] at hx
  split at hx
  case isTrue h =>
    rcases List.mem_map.mp hx with ⟨w, hw, hfx⟩
    by_cases hwid : (w.id == it.id) = true
    · rw [if_pos hwid] at hfx
      rw [← hfx]
    · rw [if_neg hwid] at hfx
      subst hfx
      exact absurd (beq_iff_eq.mpr hid) hwid
  case isFalse h =>
    rcases List.mem_append.mp hx with h1 | h1
    · exact absurd (List.any_eq_true.mpr ⟨x, h1, by simp [hid]⟩) h
    · rw [List.mem_singleton.mp h1]

/-- Witness for claim C8 at the spec's own example: quantity 3 at unit price
19.99 (1999 cents) gives total price exactly 59.97 (5997 cents), the row
being the one persisted by the save. -/
theorem billitem_save_total_price_witness :
    ({ id := 4, billId := 1, description := "tablets", quantity := 3,
       unit_price := 1999, total_price := 5997 } : BillItem) ∈
      (BillItem.save
        { bills := [{ id := 1, patientId := 7, total_amount := 0,
                      paid_amount := 0, status := BillStatus.PENDING }],
          items := [] }
        { id := 4, billId := 1, description := "tablets", quantity := 3,
          unit_price := 1999, total_price := 0 }).items ∧
    ({ id := 4, billId := 1, description := "tablets", quantity := 3,
       unit_price := 1999, total_price := 5997 } : BillItem).total_price =
      3 * 1999 :=
  ⟨by decide,
   billitem_save_total_price
     { bills := [{ id := 1, patientId := 7, total_amount := 0,
                   paid_amount := 0, status := BillStatus.PENDING }],
       items := [] }
     { id := 4, billId := 1, description := "tablets", quantity := 3,
       unit_price := 1999, total_price := 0 }
     { id := 4, billId := 1, description := "tablets", quantity := 3,
       unit_price := 1999, total_price := 5997 }
     (by decide) rfl⟩

/-- Claim C9: the bill-total recomputation performed by `BillItem.save`
changes only `total_amount`: every bill in the post-state corresponds to a
pre-state bill with the same primary key, the same `status`, the same
`paid_amount` and the same patient. -/
theorem billitem_save_frame (s : BillingState) (it : BillItem) :
    ∀ b ∈ (BillItem.save s it).bills, ∃ b0 ∈ s.bills,
      b0.id = b.id ∧ b.status = b0.status ∧ b.paid_amount = b0.paid_amount ∧
      b.patientId = b0.patientId := by
  intro b hb
  simp only [BillItem.save] at hb
  rcases List.mem_map.mp hb with ⟨b0, hb0, hfb⟩
  refine ⟨b0, hb0, ?_⟩
  rw [← hfb]
  by_cases hid : (b0.id == it.billId) = true
  · rw [if_pos hid]
    exact ⟨rfl, rfl, rfl, rfl⟩
  · rw [if_neg hid]
    exact ⟨rfl, rfl, rfl, rfl⟩

/-- Witness for claim C9: a concrete save against a PARTIAL bill with a
nonzero paid amount updates the total to 6.00 yet leaves status and paid
amount as they were. -/
theorem billitem_save_frame_witness :
    ({ id := 2, patientId := 8, total_amount := 600, paid_amount := 250,
       status := BillStatus.PARTIAL } : Bill) ∈
      (BillItem.save
        { bills := [{ id := 2, patientId := 8, total_amount := 500,
                      paid_amount := 250, status := BillStatus.PARTIAL }],
          items := [] }
        { id := 6, billId := 2, description := "bed", quantity := 2,
          unit_price := 300, total_price := 0 }).bills ∧
    ∃ b0 ∈ ({ bills := [{ id := 2, patientId := 8, total_amount := 500,
                          paid_amount := 250, status := BillStatus.PARTIAL }],
              items := [] } : BillingState).bills,
      b0.id = 2 ∧ BillStatus.PARTIAL = b0.status ∧ (250 : Int) = b0.paid_amount ∧
      (8 : Nat) = b0.patientId :=
  ⟨by decide,
   billitem_save_frame
     { bills := [{ id := 2, patientId := 8, total_amount := 500,
                   paid_amount := 250, status := BillStatus.PARTIAL }],
       items := [] }
     { id := 6, billId := 2, description := "bed", quantity := 2,
       unit_price := 300, total_price := 0 }
     { id := 2, patientId := 8, total_amount := 600, paid_amount := 250,
       status := BillStatus.PARTIAL }
     (by decide)⟩

/-- The operations of the registration/approval workflow:
`register_view` (`core/views.py` lines 28-51) and `approve_user`
(lines 146-165). The admin action carries the acting user, the target's id
and the POST `action` string. -/
inductive WorkflowOp
  | register (freshId : Nat) (role : Role)
  | adminAction (actor : CustomUser) (targetId : Nat) (action : String)

/-- One workflow step over the users table.
`register_view`: `form.save(commit=False)`, then `user.is_approved = False`,
then `user.save()` — the account enters unapproved whatever role the
registrant chose (a duplicate username makes the form invalid: no write).
`approve_user`: guarded by `@login_required` and `request.user.is_admin()`;
action `approve` sets `is_approved = True` on the target and saves, action
`reject` hard-deletes the target row (dependent rows cascade), any other
action writes nothing. -/
def applyOp (s : List CustomUser) (op : WorkflowOp) : List CustomUser :=
  match op with
  | WorkflowOp.register freshId role =>
      if s.any (fun u => u.id == freshId) then s
      else s ++ [{ id := freshId, role := role, is_approved := false,
                   is_authenticated := false }]
  | WorkflowOp.adminAction actor targetId action =>
      if !(actor.is_authenticated && actor.is_admin) then s
      else if action == "approve" then
        s.map (fun u => if u.id == targetId then { u with is_approved := true } else u)
      else if action == "reject" then
        s.filter (fun u => !(u.id == targetId))
      else s

/-- In a table whose ids are pairwise distinct, two members with equal ids
coincide. -/
theorem mem_id_unique {s : List CustomUser}
    (hnd : (s.map CustomUser.id).Nodup) {u v : CustomUser}
    (hu : u ∈ s) (hv : v ∈ s) (h : u.id = v.id) : u = v :=
  List.inj_on_of_nodup_map hnd hu hv h

/-- Claim C5: over the workflow operations, (1) registration creates the
account unapproved whatever the chosen role, (2) an account is approved in
the post-state only if it was already approved or the operation is an admin
`approve` aimed at it, (3) an admin `reject` removes the target account, and
(4) no operation moves an account's `is_approved` from true back to false. -/
theorem registration_approval_workflow (s : List CustomUser)
    (hnd : (s.map CustomUser.id).Nodup) :
    (∀ i r, ∀ u ∈ applyOp s (WorkflowOp.register i r),
        u ∈ s ∨ (u.id = i ∧ u.is_approved = false)) ∧
    (∀ op, ∀ u ∈ applyOp s op, u.is_approved = true →
        (∃ u0 ∈ s, u0.id = u.id ∧ u0.is_approved = true) ∨
        (∃ a t, op = WorkflowOp.adminAction a t "approve" ∧
          a.is_authenticated = true ∧ a.is_admin = true ∧ u.id = t)) ∧
    (∀ a t, a.is_authenticated = true → a.is_admin = true →
        ∀ u ∈ applyOp s (WorkflowOp.adminAction a t "reject"), u.id ≠ t) ∧
    (∀ op, ∀ u0 ∈ s, u0.is_approved = true →
        ∀ u ∈ applyOp s op, u.id = u0.id → u.is_approved = true) := by
  refine ⟨?_, ?_, ?_, ?_⟩
  · intro i r u hu
    simp only [applyOp] at hu
    split at hu
    · exact Or.inl hu
    · rcases List.mem_append.mp hu with h1 | h1
      · exact Or.inl h1
      · rw [List.mem_singleton.mp h1]
        exact Or.inr ⟨rfl, rfl⟩
  · intro op u hu happr
    match op with
    | WorkflowOp.register i r =>
        simp only [applyOp] at hu
        split at hu
        · exact Or.inl ⟨u, hu, rfl, happr⟩
        · rcases List.mem_append.mp hu with h1 | h1
          · exact Or.inl ⟨u, h1, rfl, happr⟩
          · rw [List.mem_singleton.mp h1] at happr
            simp at happr
    | WorkflowOp.adminAction a t act =>
        simp only [applyOp] at hu
        by_cases hg : (!(a.is_authenticated && a.is_admin)) = true
        · rw [if_pos hg] at hu
          exact Or.inl ⟨u, hu, rfl, happr⟩
        · rw [if_neg hg] at hu
          have hga : a.is_authenticated = true ∧ a.is_admin = true := by
            simpa using hg
          by_cases hap : (act == "approve") = true
          · rw [if_pos hap] at hu
            rcases List.mem_map.mp hu with ⟨w, hw, hfw⟩
            by_cases hwt : (w.id == t) = true
            · rw [if_pos hwt] at hfw
              refine Or.inr ⟨a, t, ?_, hga.1, hga.2, ?_⟩
              · rw [beq_iff_eq.mp hap]
              · rw [← hfw]
                exact beq_iff_eq.mp hwt
            · rw [if_neg hwt] at hfw
              rw [← hfw]
              rw [← hfw] at happr
              exact Or.inl ⟨w, hw, rfl, happr⟩
          · rw [if_neg hap] at hu
            by_cases hrj : (act == "reject") = true
            · rw [if_pos hrj] at hu
              exact Or.inl ⟨u, List.mem_of_mem_filter hu, rfl, happr⟩
            · rw [if_neg hrj] at hu
              exact Or.inl ⟨u, hu, rfl, happr⟩
  · intro a t hauth hadm u hu
    simp only [applyOp] at hu
    rw [if_neg (by simp [hauth, hadm])] at hu
    rw [if_neg (by decide), if_pos (by decide)] at hu
    have := List.of_mem_filter hu
    simpa using this
  · intro op u0 hu0 happr0 u hu hid
    match op with
    | WorkflowOp.register i r =>
        simp only [applyOp] at hu
        split at hu
        case isTrue h =>
          rw [mem_id_unique hnd hu hu0 hid]
          exact happr0
        case isFalse h =>
          rcases List.mem_append.mp hu with h1 | h1
          · rw [mem_id_unique hnd h1 hu0 hid]
            exact happr0
          · exfalso
            apply h
            rw [List.mem_singleton.mp h1] at hid
            exact List.any_eq_true.mpr ⟨u0, hu0, by simp [← hid]⟩
    | WorkflowOp.adminAction a t act =>
        simp only [applyOp] at hu
        by_cases hg : (!(a.is_authenticated && a.is_admin)) = true
        · rw [if_pos hg] at hu
          rw [mem_id_unique hnd hu hu0 hid]
          exact happr0
        · rw [if_neg hg] at hu
          by_cases hap : (act == "approve") = true
          · rw [if_pos hap] at hu
            rcases List.mem_map.mp hu with ⟨w, hw, hfw⟩
            have hwid : w.id = u.id := by
              by_cases hwt : (w.id == t) = true
              · rw [if_pos hwt] at hfw
                rw [← hfw]
              · rw [if_neg hwt] at hfw
                rw [← hfw]
            have hw0 : w = u0 := mem_id_unique hnd hw hu0 (hwid.trans hid)
            by_cases hwt : (w.id == t) = true
            · rw [if_pos hwt] at hfw
              rw [← hfw]
            · rw [if_neg hwt] at hfw
              rw [← hfw, hw0]
              exact happr0
          · rw [if_neg hap] at hu
            by_cases hrj : (act == "reject") = true
            · rw [if_pos hrj] at hu
              rw [mem_id_unique hnd (List.mem_of_mem_filter hu) hu0 hid]
              exact happr0
            · rw [if_neg hrj] at hu
              rw [mem_id_unique hnd hu hu0 hid]
              exact happr0

/-- Witness for claim C5 on a concrete two-account table with distinct ids. -/
theorem registration_approval_workflow_witness :
    ((([{ id := 1, role := Role.ADMIN, is_approved := true, is_authenticated := true },
        { id := 2, role := Role.PATIENT, is_approved := false,
          is_authenticated := false }] : List CustomUser).map CustomUser.id).Nodup) ∧
    (∀ i r, ∀ u ∈ applyOp
        [{ id := 1, role := Role.ADMIN, is_approved := true, is_authenticated := true },
         { id := 2, role := Role.PATIENT, is_approved := false,
           is_authenticated := false }] (WorkflowOp.register i r),
        u ∈ [{ id := 1, role := Role.ADMIN, is_approved := true,
               is_authenticated := true },
             { id := 2, role := Role.PATIENT, is_approved := false,
               is_authenticated := false }] ∨ (u.id = i ∧ u.is_approved = false)) := by
  refine ⟨by decide, ?_⟩
  exact (registration_approval_workflow _ (by decide)).1

/-- A profile row (`DoctorProfile` / `PatientProfile` in `core/models.py`):
a one-to-one extension keyed by the owning account's id. The role-specific
payload plays no part in the lazy-creation logic. -/
structure Profile where
  id : Nat
  userId : Nat
  deriving DecidableEq, Repr

/-- The lazy get-or-create step shared by `doctor_profile_edit`
(`core/views.py` lines 603-624) and `patient_profile_edit` (lines 627-648):
`try: profile = request.user.<role>_profile` returns the existing row through
the one-to-one accessor, and only on `DoesNotExist` is a fresh row created
with `objects.create(user=request.user)`. -/
def profile_edit_access (profiles : List Profile) (userId freshId : Nat) :
    Profile × List Profile :=
  match profiles.find? (fun p => p.userId == userId) with
  | some p => (p, profiles)
  | none => ({ id := freshId, userId := userId },
             profiles ++ [{ id := freshId, userId := userId }])

/-- Iterated profile-page accesses for one account (the id a fresh row would
get never matters once a row exists). -/
def iterAccess (profiles : List Profile) (userId : Nat) : Nat → List Profile
  | 0 => profiles
  | n + 1 => (profile_edit_access (iterAccess profiles userId n) userId 0).2

theorem access_state_found {profiles : List Profile} {uid fid : Nat} {q : Profile}
    (hf : profiles.find? (fun p => p.userId == uid) = some q) :
    profile_edit_access profiles uid fid = (q, profiles) := by
  simp [profile_edit_access, hf]

theorem access_state_missing {profiles : List Profile} {uid fid : Nat}
    (hf : profiles.find? (fun p => p.userId == uid) = none) :
    profile_edit_access profiles uid fid =
      ({ id := fid, userId := uid }, profiles ++ [{ id := fid, userId := uid }]) := by
  simp [profile_edit_access, hf]

/-- One access always leaves exactly one profile row for the account,
provided the one-to-one constraint held before (at most one row). -/
theorem access_countP (profiles : List Profile) (uid fid : Nat)
    (h : profiles.countP (fun p => p.userId == uid) ≤ 1) :
    ((profile_edit_access profiles uid fid).2).countP
      (fun p => p.userId == uid) = 1 := by
  cases hf : profiles.find? (fun p => p.userId == uid) with
  | some q =>
      rw [access_state_found hf]
      have hq := List.find?_some hf
      have hqm := List.mem_of_find?_eq_some hf
      have hpos : 0 < profiles.countP (fun p => p.userId == uid) :=
        List.countP_pos_iff.mpr ⟨q, hqm, hq⟩
      exact Nat.le_antisymm h hpos
  | none =>
      rw [access_state_missing hf]
      have h0 : profiles.countP (fun p => p.userId == uid) = 0 := by
        rw [List.countP_eq_zero]
        intro a ha
        simpa using List.find?_eq_none.mp hf a ha
      rw [List.countP_append, h0]
      simp [List.countP_cons]

/-- Claim C7: the lazy profile creation is idempotent. If the account
already has a profile row, another profile-edit access does not change the
table and hands back an existing row for that account; and starting from a
table satisfying the one-to-one constraint, after any positive number of
accesses the account has exactly one profile row. -/
theorem profile_access_idempotent (profiles : List Profile) (uid fid : Nat)
    (h1 : profiles.countP (fun p => p.userId == uid) ≤ 1) :
    (∀ p ∈ profiles, p.userId = uid →
        (profile_edit_access profiles uid fid).2 = profiles ∧
        (profile_edit_access profiles uid fid).1 ∈ profiles ∧
        (profile_edit_access profiles uid fid).1.userId = uid) ∧
    (∀ n, 1 ≤ n →
        (iterAccess profiles uid n).countP (fun p => p.userId == uid) = 1) := by
  constructor
  · intro p hp hpu
    have hs : (profiles.find? (fun p => p.userId == uid)).isSome := by
      rw [List.find?_isSome]
      exact ⟨p, hp, by simp [hpu]⟩
    rcases Option.isSome_iff_exists.mp hs with ⟨q, hq⟩
    rw [access_state_found hq]
    exact ⟨rfl, List.mem_of_find?_eq_some hq, by simpa using List.find?_some hq⟩
  · have key : ∀ m, (iterAccess profiles uid (m + 1)).countP
        (fun p => p.userId == uid) = 1 := by
      intro m
      induction m with
      | zero =>
          simp only [iterAccess]
          exact access_countP profiles uid 0 h1
      | succ k ih =>
          simp only [iterAccess]
          exact access_countP _ uid 0 ih.le
    intro n hn
    match n, hn with
    | m + 1, _ => exact key m

/-- Witness for claim C7 on a one-row table. -/
theorem profile_access_idempotent_witness :
    (([{ id := 3, userId := 9 }] : List Profile).countP
        (fun p => p.userId == 9) ≤ 1) ∧
    (∀ p ∈ ([{ id := 3, userId := 9 }] : List Profile), p.userId = 9 →
        (profile_edit_access [{ id := 3, userId := 9 }] 9 4).2 =
          [{ id := 3, userId := 9 }] ∧
        (profile_edit_access [{ id := 3, userId := 9 }] 9 4).1 ∈
          ([{ id := 3, userId := 9 }] : List Profile) ∧
        (profile_edit_access [{ id := 3, userId := 9 }] 9 4).1.userId = 9) := by
  refine ⟨by decide, ?_⟩
  exact (profile_access_idempotent [{ id := 3, userId := 9 }] 9 4 (by decide)).1

/-- The fields of `MedicalRecord` (`core/models.py`) the creation workflow
sets; the clinical payload beyond the diagnosis is irrelevant to the claim. -/
structure MedicalRecord where
  id : Nat
  patientId : Nat
  doctorId : Nat
  diagnosis : String
  deriving DecidableEq, Repr

/-- The patient queryset installed by `MedicalRecordForm.__init__`
(`core/forms.py` lines 110-119): when the supplied user is a doctor, the
selectable patients are the users of role PATIENT having at least one
appointment with that doctor whose status is CONFIRMED or COMPLETED
(`.distinct()` only removes duplicates); otherwise the field keeps the model
default `limit_choices_to={'role': 'PATIENT'}`. -/
def selectablePatients (users : List CustomUser) (appts : List Appointment)
    (user : CustomUser) : List CustomUser :=
  if user.is_doctor then
    users.filter (fun u => u.role == Role.PATIENT &&
      appts.any (fun a => a.patientId == u.id && a.doctorId == user.id &&
        (a.status == ApptStatus.CONFIRMED || a.status == ApptStatus.COMPLETED)))
  else users.filter (fun u => u.role == Role.PATIENT)

/-- `MedicalRecordCreateView` (`core/views.py` lines 420-433):
`DoctorRequiredMixin` gates entry, `get_form_kwargs` hands `request.user` to
the form, validation accepts only a patient from the form's queryset, and
`form_valid` sets `instance.doctor = request.user`. -/
def createMedicalRecord (users : List CustomUser) (appts : List Appointment)
    (actor : CustomUser) (freshId patientId : Nat) (diagnosis : String) :
    Option MedicalRecord :=
  if !(actor.is_authenticated && actor.is_doctor) then none
  else if (selectablePatients users appts actor).any (fun u => u.id == patientId) then
    some { id := freshId, patientId := patientId, doctorId := actor.id,
           diagnosis := diagnosis }
  else none

/-- Membership in the doctor-scoped patient queryset, spelled out. -/
theorem mem_selectablePatients {users : List CustomUser} {appts : List Appointment}
    {actor u : CustomUser} (h2 : actor.is_doctor = true) :
    u ∈ selectablePatients users appts actor ↔
      u ∈ users ∧ u.role = Role.PATIENT ∧
        ∃ a ∈ appts, a.patientId = u.id ∧ a.doctorId = actor.id ∧
          (a.status = ApptStatus.CONFIRMED ∨ a.status = ApptStatus.COMPLETED) := by
  unfold selectablePatients
  rw [if_pos h2, List.mem_filter]
  simp only [Bool.and_eq_true, beq_iff_eq, List.any_eq_true, Bool.or_eq_true,
    and_assoc]

/-- Claim C10: a record created through the doctor's record-creation view has
its doctor field set to the acting doctor, and creation succeeds exactly when
the chosen patient is a PATIENT-role user with at least one CONFIRMED or
COMPLETED appointment with that doctor — so a patient whose appointments with
the doctor are all PENDING or CANCELLED is not selectable. -/
theorem medical_record_creation (users : List CustomUser) (appts : List Appointment)
    (actor : CustomUser) (freshId patientId : Nat) (diag : String)
    (h1 : actor.is_authenticated = true) (h2 : actor.is_doctor = true) :
    (∀ r, createMedicalRecord users appts actor freshId patientId diag = some r →
        r.doctorId = actor.id) ∧
    ((∃ r, createMedicalRecord users appts actor freshId patientId diag = some r) ↔
      ∃ u ∈ users, u.id = patientId ∧ u.role = Role.PATIENT ∧
        ∃ a ∈ appts, a.patientId = u.id ∧ a.doctorId = actor.id ∧
          (a.status = ApptStatus.CONFIRMED ∨ a.status = ApptStatus.COMPLETED)) := by
  have hguard : (!(actor.is_authenticated && actor.is_doctor)) = false := by
    simp [h1, h2]
  constructor
  · intro r hr
    unfold createMedicalRecord at hr
    rw [hguard] at hr
    simp only [Bool.false_eq_true, if_false] at hr
    split at hr
    · rw [← Option.some_inj.mp hr]
    · exact absurd hr (by simp)
  · unfold createMedicalRecord
    rw [hguard]
    simp only [Bool.false_eq_true, if_false]
    by_cases hany :
        ((selectablePatients users appts actor).any (fun u => u.id == patientId)) = true
    · rw [if_pos hany]
      constructor
      · intro _
        rcases List.any_eq_true.mp hany with ⟨u, hu, huid⟩
        rcases (mem_selectablePatients h2).mp hu with ⟨hmem, hrole, hrest⟩
        exact ⟨u, hmem, beq_iff_eq.mp huid, hrole, hrest⟩
      · intro _
        exact ⟨_, rfl⟩
    · rw [if_neg hany]
      constructor
      · intro ⟨r, hr⟩
        exact absurd hr (by simp)
      · intro ⟨u, hmem, huid, hrole, hrest⟩
        exfalso
        apply hany
        exact List.any_eq_true.mpr
          ⟨u, (mem_selectablePatients h2).mpr ⟨hmem, hrole, hrest⟩,
            beq_iff_eq.mpr huid⟩

/-- Witness for claim C10: a doctor with one CONFIRMED appointment for a
concrete patient. -/
theorem medical_record_creation_witness :
    (∀ r, createMedicalRecord
        [{ id := 1, role := Role.DOCTOR, is_approved := true, is_authenticated := true },
         { id := 2, role := Role.PATIENT, is_approved := true, is_authenticated := false }]
        [{ id := 20, patientId := 2, doctorId := 1, appointment_date := "2026-01-05",
           appointment_time := "09:00", status := ApptStatus.CONFIRMED,
           appointment_type := "OPD", reason := "" }]
        { id := 1, role := Role.DOCTOR, is_approved := true, is_authenticated := true }
        50 2 "flu" = some r → r.doctorId = 1) ∧
    ((∃ r, createMedicalRecord
        [{ id := 1, role := Role.DOCTOR, is_approved := true, is_authenticated := true },
         { id := 2, role := Role.PATIENT, is_approved := true, is_authenticated := false }]
        [{ id := 20, patientId := 2, doctorId := 1, appointment_date := "2026-01-05",
           appointment_time := "09:00", status := ApptStatus.CONFIRMED,
           appointment_type := "OPD", reason := "" }]
        { id := 1, role := Role.DOCTOR, is_approved := true, is_authenticated := true }
        50 2 "flu" = some r) ↔
      ∃ u ∈ [{ id := 1, role := Role.DOCTOR, is_approved := true,
               is_authenticated := true },
             { id := 2, role := Role.PATIENT, is_approved := true,
               is_authenticated := false : CustomUser }],
        u.id = 2 ∧ u.role = Role.PATIENT ∧
        ∃ a ∈ [{ id := 20, patientId := 2, doctorId := 1,
                 appointment_date := "2026-01-05", appointment_time := "09:00",
                 status := ApptStatus.CONFIRMED, appointment_type := "OPD",
                 reason := "" : Appointment }],
          a.patientId = u.id ∧ a.doctorId = 1 ∧
          (a.status = ApptStatus.CONFIRMED ∨ a.status = ApptStatus.COMPLETED)) := by
  exact medical_record_creation _ _ _ 50 2 "flu" (by decide) (by decide)

end Hospital
